import Mathlib

/-! Verification of the Analysis Session Engine of the `squash` repository:
a shallow embedding of the analysis page controller (`handleRun` in
`src/frontend/app/analysis/page.tsx`), the stage choreographer
(`AnalysisLoading`), the query-input surface (`QueryInput`) and the
opportunity ranking view (`OpportunitiesTab`), together with theorems
about their behaviour.
-/

namespace Squash

/-! Data model (from `lib/types` usage sites in the components) -/

/-- A scored opportunity (`ScoredFeature` in the frontend types): `name`,
`description`, a `confidence` string, an optional numeric `rice_score` and
an optional `category`. -/
structure ScoredFeature where
  name : String
  description : String
  confidence : String
  rice_score : Option Int
  category : Option String
deriving DecidableEq, Repr

/-- The remote pipeline's response (`QueryResponse`), as consumed by
`AnalysisResults`: optional top feature, three optional markdown documents
and an optional list of scored opportunities. -/
structure QueryResponse where
  top_feature : Option ScoredFeature
  feature_spec_markdown : Option String
  ui_proposals_markdown : Option String
  task_breakdown_markdown : Option String
  all_opportunities : Option (List ScoredFeature)
deriving DecidableEq, Repr

/-- A persisted history record, as constructed by `handleRun` on success:
`{ id: generateId(), query, files: selectedFiles, timestamp: Date.now(), result: response }`. -/
structure HistoryEntry where
  id : Nat
  query : String
  files : List String
  timestamp : Nat
  result : QueryResponse
deriving DecidableEq, Repr

/-! Opportunity ranking view
(`OpportunitiesTab` in `src/frontend/components/analysis/analysis-results.tsx`,
lines 81-112). -/

/-- The sortable fields: `type SortField = "name" | "rice_score" | "confidence"`. -/
inductive SortField where
  | name
  | rice_score
  | confidence
deriving DecidableEq, Repr

/-- The confidence lookup table `{ high: 3, medium: 2, low: 1 }`; a missing
key yields `undefined`, and `order[x] ?? 0` turns that into `0`. -/
def confidenceOrder (c : String) : Int :=
  if c = "high" then 3
  else if c = "medium" then 2
  else if c = "low" then 1
  else 0

/-- The per-field comparison `cmp` computed in the sort callback.
`name` uses `localeCompare`, embedded here as the sign of the standard
string ordering; `rice_score` is `(a.rice_score ?? 0) - (b.rice_score ?? 0)`;
`confidence` is `(order[a.confidence] ?? 0) - (order[b.confidence] ?? 0)`. -/
def featureCmp (field : SortField) (a b : ScoredFeature) : Int :=
  match field with
  | .name =>
    match compare a.name b.name with
    | .lt => -1
    | .eq => 0
    | .gt => 1
  | .rice_score => (a.rice_score.getD 0) - (b.rice_score.getD 0)
  | .confidence => confidenceOrder a.confidence - confidenceOrder b.confidence

/-- The full comparator passed to `Array.prototype.sort`:
`return sortAsc ? cmp : -cmp`. -/
def tabComparator (field : SortField) (sortAsc : Bool) (a b : ScoredFeature) : Int :=
  let cmp := featureCmp field a b
  if sortAsc then cmp else -cmp

/-- Stable insertion of `x` into a list already sorted by the comparator:
`x` goes before the first element it does not compare after. -/
def insertByCmp (cmp : ScoredFeature → ScoredFeature → Int) (x : ScoredFeature) :
    List ScoredFeature → List ScoredFeature
  | [] => [x]
  | y :: ys => if cmp x y ≤ 0 then x :: y :: ys else y :: insertByCmp cmp x ys

/-- Stable comparator sort, the embedding of `[...opportunities].sort(cb)`
(ECMAScript `Array.prototype.sort` is stable and orders ascending by the
callback's sign). -/
def sortByCmp (cmp : ScoredFeature → ScoredFeature → Int) :
    List ScoredFeature → List ScoredFeature
  | [] => []
  | x :: xs => insertByCmp cmp x (sortByCmp cmp xs)

/-- The `sorted` list rendered by `OpportunitiesTab` for a given sort state. -/
def sortedOpportunities (field : SortField) (sortAsc : Bool)
    (opportunities : List ScoredFeature) : List ScoredFeature :=
  sortByCmp (tabComparator field sortAsc) opportunities

/-- Initial sort state: `useState<SortField>("rice_score")`. -/
def initialSortField : SortField := .rice_score

/-- Initial sort direction: `useState(false)` for `sortAsc`. -/
def initialSortAsc : Bool := false

/-! Stage choreographer
(`AnalysisLoading` in `src/unnamed/part_003`). The effect keeps a closure
variable `currentStep`, the rendered state `activeStep`, and a single
pending `setTimeout` handle. `PIPELINE_NODES` itself lives in
`lib/constants`, which is not part of the sources here, so its length is a
parameter `numNodes`. -/

/-- `const STEP_DURATIONS = [2000, 3000, 5000, 3000, 4000, 2000]`. -/
def STEP_DURATIONS : List Nat := [2000, 3000, 5000, 3000, 4000, 2000]

/-- The choreographer's observable state: the rendered `activeStep`, the
effect closure's `currentStep`, and the pending timeout, if any, holding
the delay it was scheduled with. -/
structure ChoreoState where
  activeStep : Nat
  currentStep : Nat
  timer : Option Nat
deriving DecidableEq, Repr

/-- The effect body on mount: `useState(0)` gives `activeStep = 0`,
`currentStep = 0`, and `timeout = setTimeout(advanceStep, STEP_DURATIONS[0])`. -/
def choreoStart : ChoreoState :=
  { activeStep := 0, currentStep := 0, timer := some (STEP_DURATIONS.getD 0 0) }

/-- A pending timeout fires and runs `advanceStep`: if
`currentStep < PIPELINE_NODES.length - 1` the step is incremented, rendered,
and a new timeout is scheduled with `STEP_DURATIONS[currentStep]` (the duration
of the newly current step); otherwise nothing happens and no timer remains.
With no pending timer nothing can fire. -/
def fireTimer (numNodes : Nat) (s : ChoreoState) : ChoreoState :=
  match s.timer with
  | none => s
  | some _ =>
    if s.currentStep < numNodes - 1 then
      { activeStep := s.currentStep + 1, currentStep := s.currentStep + 1,
        timer := some (STEP_DURATIONS.getD (s.currentStep + 1) 0) }
    else
      { s with timer := none }

/-- The effect cleanup `() => clearTimeout(timeout)`: the pending timeout,
if any, is cancelled; nothing else changes. -/
def clearTimer (s : ChoreoState) : ChoreoState :=
  { s with timer := none }

/-- The choreographer state after `k` timer firings from mount. -/
def choreoRun (numNodes : Nat) : Nat → ChoreoState
  | 0 => choreoStart
  | k + 1 => fireTimer numNodes (choreoRun numNodes k)

/-! Query-input surface
(`QueryInput` in `src/frontend/components/analysis/query-input.tsx`). -/

/-- ECMAScript `String.prototype.trim`: strip leading and trailing
whitespace. Embedded structurally over the character list. -/
def jsTrim (s : String) : String :=
  ⟨(((s.data.dropWhile Char.isWhitespace).reverse.dropWhile Char.isWhitespace).reverse)⟩

/-- The run button's `disabled` prop: `!query.trim() || isRunning`. -/
def runButtonDisabled (query : String) (isRunning : Bool) : Bool :=
  (jsTrim query == "") || isRunning

/-- Whether the textarea's `onKeyDown` handler invokes `onRun`:
`e.key === "Enter" && (e.metaKey || e.ctrlKey)`. It does not consult
`isRunning`. -/
def keydownInvokesRun (key : String) (metaKey ctrlKey : Bool) : Bool :=
  (key == "Enter") && (metaKey || ctrlKey)

/-! Analysis page controller
(`AnalysisPage` / `handleRun` in `src/frontend/app/analysis/page.tsx`).
The component state is `query`, `selectedFiles`, `isRunning`, `result`;
`handleRun` is async, so it is split at its one suspension point
(`await runQuery(...)`) into a synchronous start phase and a settle phase
that runs when the response arrives. Outstanding requests are kept in a
pending list; the token keying a pending request is only the model's name
for "the continuation of that particular call" — the code itself carries
no run identifier. -/

/-- A thrown JavaScript value as seen by the `catch` block: `some m` is an
`Error` with message `m`, `none` is a non-`Error` throw. -/
abbrev JsError := Option String

/-- A toast notification (`toast.success` / `toast.error` from `sonner`). -/
inductive Toast where
  | success (msg : String)
  | error (msg : String)
deriving DecidableEq, Repr

/-- The React component state of `AnalysisPage`. -/
structure PageState where
  query : String
  selectedFiles : List String
  isRunning : Bool
  result : Option QueryResponse
deriving DecidableEq, Repr

/-- An outstanding `runQuery` request: the model's token for the awaiting
continuation, plus the `query` and `selectedFiles` values captured by the
`handleRun` closure when it started. -/
structure PendingRun where
  token : Nat
  query : String
  files : List String
deriving DecidableEq, Repr

/-- The whole observable system: page state, outstanding requests, the
history cache contents, the emitted toasts, the id/token supplies and a
logical clock for `Date.now()`. -/
structure SysState where
  page : PageState
  pending : List PendingRun
  history : List HistoryEntry
  toasts : List Toast
  nextToken : Nat
  nextId : Nat
  now : Nat
deriving DecidableEq, Repr

/-- Modelled from the spec: `generateId` (`lib/utils`) is not among the
sources; the spec requires "`id`: opaque unique identifier, generated at
creation time by the caller, never reused", modelled as drawing the next
value of the id supply `nextId`. -/
def generateId (s : SysState) : Nat := s.nextId

/-- Modelled from the spec: `addEntry` (`lib/hooks/use-analysis-history`)
is not among the sources; the spec's History Cache "inserts at the head of
the enumeration order (newest first)". -/
def addEntry (history : List HistoryEntry) (e : HistoryEntry) : List HistoryEntry :=
  e :: history

/-- The synchronous prefix of `handleRun`, up to the `await`:
`if (!query.trim()) return;` then `setIsRunning(true); setResult(null);`
and the call `runQuery(query, selectedFiles)` is issued, capturing the
current `query` and `selectedFiles`. -/
def handleRunStart (s : SysState) : SysState :=
  if jsTrim s.page.query = "" then s
  else
    { s with
      page := { s.page with isRunning := true, result := none },
      pending := s.pending ++ [{ token := s.nextToken,
                                 query := s.page.query,
                                 files := s.page.selectedFiles }],
      nextToken := s.nextToken + 1 }

/-- The continuation of `handleRun` after `await runQuery` settles for the
outstanding request `p`. Success: `setResult(response)`, build the history
entry `{ id: generateId(), query, files: selectedFiles, timestamp: Date.now(),
result: response }`, `addEntry` it, `toast.success("Analysis complete")`.
Failure: `toast.error(err instanceof Error ? err.message : "Analysis failed")`.
Both paths end with the `finally` block's `setIsRunning(false)`. -/
def handleRunSettle (s : SysState) (p : PendingRun)
    (outcome : Except JsError QueryResponse) : SysState :=
  match outcome with
  | .ok response =>
    let entry : HistoryEntry :=
      { id := generateId s, query := p.query, files := p.files,
        timestamp := s.now, result := response }
    { s with
      page := { s.page with result := some response, isRunning := false },
      history := addEntry s.history entry,
      toasts := s.toasts ++ [.success "Analysis complete"],
      nextId := s.nextId + 1 }
  | .error err =>
    { s with
      page := { s.page with isRunning := false },
      toasts := s.toasts ++ [.error (err.getD "Analysis failed")] }

/-- The events the system reacts to: editing the query, toggling a file in
the selector, triggering `handleRun` (button click or Ctrl/Cmd+Enter), an
outstanding request settling, and the clock ticking. -/
inductive Event where
  | setQuery (q : String)
  | toggleFile (f : String)
  | run
  | respond (token : Nat) (outcome : Except JsError QueryResponse)
  | tick
deriving Repr

/-- One step of the cooperative event loop. `toggleFile` is the `toggleFile`
callback of the page; `respond` removes the settled request from the
outstanding list and runs the captured continuation; a token with no
outstanding request does nothing (each request settles once). -/
def step (s : SysState) : Event → SysState
  | .setQuery q => { s with page := { s.page with query := q } }
  | .toggleFile f =>
    { s with page := { s.page with selectedFiles :=
        if s.page.selectedFiles.contains f then
          s.page.selectedFiles.filter (fun g => g ≠ f)
        else
          s.page.selectedFiles ++ [f] } }
  | .run => handleRunStart s
  | .respond token outcome =>
    match s.pending.find? (fun p => p.token == token) with
    | some p =>
      handleRunSettle
        { s with pending := s.pending.filter (fun p => p.token != token) } p outcome
    | none => s
  | .tick => { s with now := s.now + 1 }

/-- Run a whole event sequence. -/
def runTrace (s : SysState) : List Event → SysState
  | [] => s
  | e :: es => runTrace (step s e) es

/-- The freshly mounted page: empty query, no selection, not running, no
result, and (for a fresh client) an empty history cache. -/
def initState : SysState :=
  { page := { query := "", selectedFiles := [], isRunning := false, result := none },
    pending := [], history := [], toasts := [],
    nextToken := 0, nextId := 0, now := 0 }

/-! Helper lemmas for the controller. -/

/-- Looking up a freshly appended outstanding request by its token finds
exactly that request, provided no older request carries the same token. -/
lemma find?_token_append (l : List PendingRun) (p : PendingRun)
    (h : ∀ q ∈ l, q.token ≠ p.token) :
    (l ++ [p]).find? (fun q => q.token == p.token) = some p := by
  induction l with
  | nil => simp
  | cons a l ih =>
    have ha : (a.token == p.token) = false := by
      simpa using h a (by simp)
    simpa [List.find?, ha] using ih (fun q hq => h q (by simp [hq]))

/-- Removing a freshly appended outstanding request by its token leaves the
older requests untouched, provided none of them carries the same token. -/
lemma filter_token_append (l : List PendingRun) (p : PendingRun)
    (h : ∀ q ∈ l, q.token ≠ p.token) :
    (l ++ [p]).filter (fun q => q.token != p.token) = l := by
  induction l with
  | nil => simp
  | cons a l ih =>
    have ha : (a.token != p.token) = true := by
      simpa using h a (by simp)
    simpa [List.filter, ha] using ih (fun q hq => h q (by simp [hq]))

/-- A `submit` on a non-blank query followed by the arrival of that very
request's response is the settle continuation applied to the started
state, with the captured query and selection. -/
lemma run_respond_eq (s : SysState) (outcome : Except JsError QueryResponse)
    (hq : ¬ jsTrim s.page.query = "")
    (htok : ∀ p ∈ s.pending, p.token ≠ s.nextToken) :
    runTrace s [.run, .respond s.nextToken outcome] =
      handleRunSettle
        { s with page := { s.page with isRunning := true, result := none },
                 nextToken := s.nextToken + 1 }
        { token := s.nextToken, query := s.page.query, files := s.page.selectedFiles }
        outcome := by
  have hfind := find?_token_append s.pending
    { token := s.nextToken, query := s.page.query, files := s.page.selectedFiles } htok
  have hfilter := filter_token_append s.pending
    { token := s.nextToken, query := s.page.query, files := s.page.selectedFiles } htok
  simp [runTrace, step, handleRunStart, hq, hfind, hfilter]

/-! Concrete fixtures. -/

/-- A pipeline response with every optional field absent. -/
def emptyResponse : QueryResponse :=
  { top_feature := none, feature_spec_markdown := none, ui_proposals_markdown := none,
    task_breakdown_markdown := none, all_opportunities := none }

/-- The response of the earlier (stale) run in the overlap scenario. -/
def respA : QueryResponse := { emptyResponse with feature_spec_markdown := some "A" }

/-- The response of the newer run in the overlap scenario. -/
def respB : QueryResponse := { emptyResponse with feature_spec_markdown := some "B" }

/-- The overlap scenario: a first query is submitted; while its request is
outstanding, the query is changed to "What should we build next?" with
`["a.pdf"]` selected and submitted again (possible via the Ctrl/Cmd+Enter
path); the newer run's response arrives first, then the earlier run's late
response arrives. -/
def staleTrace : List Event :=
  [.setQuery "first query", .run,
   .setQuery "What should we build next?", .toggleFile "a.pdf", .run,
   .respond 1 (.ok respB), .respond 0 (.ok respA)]

/-- A page state whose query is whitespace-only. -/
def blankQueryState : SysState :=
  { initState with page := { initState.page with query := "   " } }

/-- A page state ready to submit "What should we build next?" with
`["a.pdf"]` selected. -/
def submitReady : SysState :=
  { initState with page := { query := "What should we build next?",
                             selectedFiles := ["a.pdf"], isRunning := false,
                             result := none } }

/-- A state with one outstanding request, as left by `submitReady` after
the synchronous phase of `handleRun`. -/
def submitStarted : SysState := step submitReady .run

/-! Claim theorems about the controller. -/

/-- Claim C1: the claimed guard does not exist in the code. `handleRun`
carries no run identifier and applies whatever response arrives: in the
overlap scenario the earlier run's late response overwrites the newer
run's displayed result and appends a history entry for the stale run
(newest-first head is the stale "first query" entry). -/
theorem C1_stale_response_is_applied :
    (runTrace initState staleTrace).page.result = some respA ∧
    respA ≠ respB ∧
    (runTrace initState staleTrace).history.map (fun e => e.query) =
      ["first query", "What should we build next?"] ∧
    (runTrace initState staleTrace).history.length = 2 := by
  decide

/-- Claim C2: a `submit` on an empty or whitespace-only query (one whose
JavaScript `trim()` is empty) leaves the whole system unchanged: no state
transition, no outstanding request, the displayed result intact, and no
history entry. -/
theorem C2_blank_query_no_effect (s : SysState) (h : jsTrim s.page.query = "") :
    step s .run = s := by
  simp [step, handleRunStart, h]

/-- Witness for C2 at the whitespace-only query `"   "`. -/
theorem C2_blank_query_no_effect_witness :
    jsTrim blankQueryState.page.query = "" ∧
    step blankQueryState .run = blankQueryState :=
  ⟨by decide, C2_blank_query_no_effect blankQueryState (by decide)⟩

/-- Claim C3: a run that reaches success stores the returned result as the
displayable result and adds exactly one new history entry whose `files`
equal the selection passed to submit, whose `result` equals the pipeline's
value, with a fresh id (distinct from every id already in the cache) and
the current timestamp; a failed run adds no entry. -/
theorem C3_success_appends_entry (s : SysState) (resp : QueryResponse) (err : JsError)
    (hq : ¬ jsTrim s.page.query = "")
    (htok : ∀ p ∈ s.pending, p.token ≠ s.nextToken)
    (hid : ∀ e ∈ s.history, e.id < s.nextId) :
    (runTrace s [.run, .respond s.nextToken (.ok resp)]).page.result = some resp ∧
    (runTrace s [.run, .respond s.nextToken (.ok resp)]).history =
      { id := s.nextId, query := s.page.query, files := s.page.selectedFiles,
        timestamp := s.now, result := resp } :: s.history ∧
    (runTrace s [.run, .respond s.nextToken (.ok resp)]).history.length =
      s.history.length + 1 ∧
    (∀ e ∈ s.history, e.id ≠ s.nextId) ∧
    (runTrace s [.run, .respond s.nextToken (.error err)]).history = s.history := by
  rw [run_respond_eq s (.ok resp) hq htok, run_respond_eq s (.error err) hq htok]
  refine ⟨rfl, rfl, rfl, fun e he => Nat.ne_of_lt (hid e he), rfl⟩

/-- Witness for C3: the submit-ready state, response `respA`, a messageless
failure. -/
theorem C3_success_appends_entry_witness :
    (runTrace submitReady [.run, .respond submitReady.nextToken (.ok respA)]).page.result
      = some respA ∧
    (runTrace submitReady [.run, .respond submitReady.nextToken (.ok respA)]).history =
      { id := submitReady.nextId, query := submitReady.page.query,
        files := submitReady.page.selectedFiles, timestamp := submitReady.now,
        result := respA } :: submitReady.history ∧
    (runTrace submitReady [.run, .respond submitReady.nextToken (.ok respA)]).history.length =
      submitReady.history.length + 1 ∧
    (∀ e ∈ submitReady.history, e.id ≠ submitReady.nextId) ∧
    (runTrace submitReady [.run, .respond submitReady.nextToken (.error none)]).history =
      submitReady.history :=
  C3_success_appends_entry submitReady respA none (by decide) (by decide) (by decide)

/-- Claim C4: the arrival of a failure for an outstanding request leaves
the history cache untouched (same contents, same size), ends the running
state, leaves the displayed result as it was, and emits exactly one error
toast carrying the error's message, or the generic "Analysis failed" when
the thrown value is not an `Error`. -/
theorem C4_failure_keeps_history (s : SysState) (token : Nat) (p : PendingRun)
    (err : JsError)
    (h : s.pending.find? (fun q => q.token == token) = some p) :
    (step s (.respond token (.error err))).history = s.history ∧
    (step s (.respond token (.error err))).history.length = s.history.length ∧
    (step s (.respond token (.error err))).page.isRunning = false ∧
    (step s (.respond token (.error err))).page.result = s.page.result ∧
    (step s (.respond token (.error err))).toasts =
      s.toasts ++ [Toast.error (err.getD "Analysis failed")] ∧
    (∀ m, err = some m →
      (step s (.respond token (.error err))).toasts = s.toasts ++ [Toast.error m]) ∧
    (err = none →
      (step s (.respond token (.error err))).toasts =
        s.toasts ++ [Toast.error "Analysis failed"]) := by
  have hs : step s (.respond token (.error err)) =
      handleRunSettle
        { s with pending := s.pending.filter (fun q => q.token != token) } p
        (.error err) := by
    simp [step, h]
  rw [hs]
  refine ⟨rfl, rfl, rfl, rfl, rfl, ?_, ?_⟩
  · rintro m rfl
    rfl
  · rintro rfl
    rfl

/-- Witness for C4: the started state, a failure with message "boom". -/
theorem C4_failure_keeps_history_witness :
    (step submitStarted (.respond 0 (.error (some "boom")))).history =
      submitStarted.history ∧
    (step submitStarted (.respond 0 (.error (some "boom")))).history.length =
      submitStarted.history.length ∧
    (step submitStarted (.respond 0 (.error (some "boom")))).page.isRunning = false ∧
    (step submitStarted (.respond 0 (.error (some "boom")))).page.result =
      submitStarted.page.result ∧
    (step submitStarted (.respond 0 (.error (some "boom")))).toasts =
      submitStarted.toasts ++ [Toast.error ((some "boom").getD "Analysis failed")] ∧
    (∀ m, (some "boom" : JsError) = some m →
      (step submitStarted (.respond 0 (.error (some "boom")))).toasts =
        submitStarted.toasts ++ [Toast.error m]) ∧
    ((some "boom" : JsError) = none →
      (step submitStarted (.respond 0 (.error (some "boom")))).toasts =
        submitStarted.toasts ++ [Toast.error "Analysis failed"]) :=
  C4_failure_keeps_history submitStarted 0
    { token := 0, query := "What should we build next?", files := ["a.pdf"] }
    (some "boom") (by decide)

/-- Claim C5: a `submit` on a non-blank query enters the running state
(exactly one new outstanding request, previous result cleared), and the
arrival of that request's outcome ends the running state with exactly one
terminal notification — the success toast when the pipeline succeeded, the
failure toast when it failed, never both, never neither. -/
theorem C5_run_settles_exactly_once (s : SysState)
    (outcome : Except JsError QueryResponse)
    (hq : ¬ jsTrim s.page.query = "")
    (htok : ∀ p ∈ s.pending, p.token ≠ s.nextToken) :
    (step s .run).page.isRunning = true ∧
    (step s .run).page.result = none ∧
    (step s .run).pending.length = s.pending.length + 1 ∧
    (runTrace s [.run, .respond s.nextToken outcome]).page.isRunning = false ∧
    (runTrace s [.run, .respond s.nextToken outcome]).toasts.length =
      s.toasts.length + 1 ∧
    (∀ resp, outcome = .ok resp →
      (runTrace s [.run, .respond s.nextToken outcome]).toasts =
        s.toasts ++ [Toast.success "Analysis complete"]) ∧
    (∀ err, outcome = .error err →
      (runTrace s [.run, .respond s.nextToken outcome]).toasts =
        s.toasts ++ [Toast.error (err.getD "Analysis failed")]) := by
  rw [run_respond_eq s outcome hq htok]
  cases outcome <;> simp [step, handleRunStart, hq, handleRunSettle]

/-- Witness for C5: the submit-ready state with a successful outcome. -/
theorem C5_run_settles_exactly_once_witness :
    (step submitReady .run).page.isRunning = true ∧
    (step submitReady .run).page.result = none ∧
    (step submitReady .run).pending.length = submitReady.pending.length + 1 ∧
    (runTrace submitReady [.run, .respond submitReady.nextToken (.ok respA)]).page.isRunning
      = false ∧
    (runTrace submitReady [.run, .respond submitReady.nextToken (.ok respA)]).toasts.length =
      submitReady.toasts.length + 1 ∧
    (∀ resp, (Except.ok respA : Except JsError QueryResponse) = .ok resp →
      (runTrace submitReady [.run, .respond submitReady.nextToken (.ok respA)]).toasts =
        submitReady.toasts ++ [Toast.success "Analysis complete"]) ∧
    (∀ err, (Except.ok respA : Except JsError QueryResponse) = .error err →
      (runTrace submitReady [.run, .respond submitReady.nextToken (.ok respA)]).toasts =
        submitReady.toasts ++ [Toast.error (err.getD "Analysis failed")]) :=
  C5_run_settles_exactly_once submitReady (.ok respA) (by decide) (by decide)

/-- Claim C10: the claimed guarantee does not hold in the code. The run
button is indeed disabled while running, but the textarea's Ctrl/Cmd+Enter
handler invokes `onRun` without consulting `isRunning`, so a second
concurrent request is issued while the first is still outstanding (two
outstanding requests after a repeated run). -/
theorem C10_keyboard_submits_while_running :
    runButtonDisabled "follow-up question" true = true ∧
    keydownInvokesRun "Enter" false true = true ∧
    keydownInvokesRun "Enter" true false = true ∧
    (runTrace initState [.setQuery "q1", .run]).page.isRunning = true ∧
    (runTrace initState [.setQuery "q1", .run, .run]).pending.length = 2 := by
  decide

/-! Claim theorems about the stage choreographer. -/

/-- Closed form of the choreographer after `k` timer firings from mount:
until the last stage is reached the index is `k` with the next timer
scheduled from the schedule entry for stage `k`; from the `n`-th firing on
the state holds at the last index with no timer. -/
lemma choreoRun_closed (n : Nat) (hn : 0 < n) (k : Nat) :
    choreoRun n k =
      if k < n then
        { activeStep := min k (n - 1), currentStep := min k (n - 1),
          timer := some (STEP_DURATIONS.getD k 0) }
      else
        { activeStep := n - 1, currentStep := n - 1, timer := none } := by
  induction k with
  | zero =>
    simp only [choreoRun, choreoStart, if_pos hn]
    congr 1 <;> omega
  | succ k ih =>
    rw [choreoRun, ih]
    by_cases h1 : k < n
    · by_cases h2 : k < n - 1
      · have hmin : min k (n - 1) = k := by omega
        have hlt : k + 1 < n := by omega
        have hmin2 : min (k + 1) (n - 1) = k + 1 := by omega
        simp [fireTimer, hmin, h2, hlt, hmin2, if_pos h1]
      · have hk : k = n - 1 := by omega
        have hmin : min k (n - 1) = n - 1 := by omega
        have hngeq : ¬ (n - 1 < n - 1) := by omega
        by_cases h3 : k + 1 < n
        · have : k < n - 1 := by omega
          exact absurd this h2
        · simp [fireTimer, hmin, hngeq, if_pos h1, if_neg h3]
    · have h3 : ¬ (k + 1 < n) := by omega
      simp [fireTimer, if_neg h1, if_neg h3]

/-- Claim C6: the choreographer starts at stage 0, never regresses, never
exceeds the final stage index, advances by exactly one stage per timer
firing while below the last stage — with the pending timer scheduled from
the duration table at the current stage — and from the last stage on holds
there. -/
theorem C6_stage_progress (n k : Nat) (hn : 0 < n) :
    (choreoRun n 0).activeStep = 0 ∧
    (choreoRun n k).activeStep = min k (n - 1) ∧
    (choreoRun n k).activeStep ≤ (choreoRun n (k + 1)).activeStep ∧
    (choreoRun n k).activeStep ≤ n - 1 ∧
    (k < n - 1 →
      (choreoRun n (k + 1)).activeStep = (choreoRun n k).activeStep + 1) ∧
    (n - 1 ≤ k → (choreoRun n k).activeStep = n - 1) ∧
    (k < n - 1 →
      (choreoRun n k).timer =
        some (STEP_DURATIONS.getD (choreoRun n k).activeStep 0)) := by
  have h0 := choreoRun_closed n hn 0
  have hk := choreoRun_closed n hn k
  have hk1 := choreoRun_closed n hn (k + 1)
  refine ⟨?_, ?_, ?_, ?_, ?_, ?_, ?_⟩
  · rw [h0]; simp [hn]
  · rw [hk]; split <;> simp <;> omega
  · rw [hk, hk1]; split <;> split <;> simp <;> omega
  · rw [hk]; split <;> simp <;> omega
  · intro h; rw [hk, hk1]
    have l1 : k < n := by omega
    have l2 : k + 1 < n := by omega
    simp [l1, l2]
    omega
  · intro h; rw [hk]; split <;> simp <;> omega
  · intro h
    have l1 : k < n := by omega
    have l2 : min k (n - 1) = k := by omega
    rw [hk]
    simp [l1, l2]

/-- Witness for C6: six stages (the length of `STEP_DURATIONS`), two timer
firings. -/
theorem C6_stage_progress_witness :
    (choreoRun 6 0).activeStep = 0 ∧
    (choreoRun 6 2).activeStep = min 2 (6 - 1) ∧
    (choreoRun 6 2).activeStep ≤ (choreoRun 6 (2 + 1)).activeStep ∧
    (choreoRun 6 2).activeStep ≤ 6 - 1 ∧
    (2 < 6 - 1 →
      (choreoRun 6 (2 + 1)).activeStep = (choreoRun 6 2).activeStep + 1) ∧
    (6 - 1 ≤ 2 → (choreoRun 6 2).activeStep = 6 - 1) ∧
    (2 < 6 - 1 →
      (choreoRun 6 2).timer =
        some (STEP_DURATIONS.getD (choreoRun 6 2).activeStep 0)) :=
  C6_stage_progress 6 2 (by decide)

/-- Claim C7: cancelling the choreographer removes any pending timer, is
idempotent, and afterwards no stale firing has any effect — in particular
the stage index never changes again. -/
theorem C7_cancel_idempotent_no_stale_firing (n : Nat) (s : ChoreoState) :
    (clearTimer s).timer = none ∧
    clearTimer (clearTimer s) = clearTimer s ∧
    fireTimer n (clearTimer s) = clearTimer s ∧
    (fireTimer n (clearTimer s)).activeStep = s.activeStep := by
  refine ⟨rfl, rfl, rfl, rfl⟩

/-! Claim theorems about the opportunity ranking view. -/

/-- An opportunity with `rice_score` 3. -/
def oppScore3 : ScoredFeature :=
  { name := "s3", description := "", confidence := "medium",
    rice_score := some 3, category := none }

/-- An opportunity with `rice_score` 9. -/
def oppScore9 : ScoredFeature :=
  { name := "s9", description := "", confidence := "medium",
    rice_score := some 9, category := none }

/-- An opportunity with no `rice_score`. -/
def oppScoreNone : ScoredFeature :=
  { name := "sna", description := "", confidence := "medium",
    rice_score := none, category := none }

/-- An opportunity with confidence "low". -/
def oppConfLow : ScoredFeature :=
  { name := "cl", description := "", confidence := "low",
    rice_score := none, category := none }

/-- An opportunity with confidence "high". -/
def oppConfHigh : ScoredFeature :=
  { name := "ch", description := "", confidence := "high",
    rice_score := none, category := none }

/-- An opportunity with confidence "medium". -/
def oppConfMedium : ScoredFeature :=
  { name := "cm", description := "", confidence := "medium",
    rice_score := none, category := none }

/-- Claim C8: ranking on `rice_score` compares numerically with an absent
score read as 0, the ascending flag exactly negates the comparator, the
spec's example orders hold ([9, 3, absent] descending, [absent, 3, 9]
ascending), and the default view is descending by `rice_score`. -/
theorem C8_rice_score_ranking :
    (∀ a b, featureCmp .rice_score a b =
      (a.rice_score.getD 0) - (b.rice_score.getD 0)) ∧
    (∀ field a b, tabComparator field true a b = -(tabComparator field false a b)) ∧
    sortedOpportunities .rice_score false [oppScore3, oppScore9, oppScoreNone] =
      [oppScore9, oppScore3, oppScoreNone] ∧
    sortedOpportunities .rice_score true [oppScore3, oppScore9, oppScoreNone] =
      [oppScoreNone, oppScore3, oppScore9] ∧
    initialSortField = .rice_score ∧
    initialSortAsc = false := by
  refine ⟨fun a b => rfl, fun field a b => ?_, by decide, by decide, rfl, rfl⟩
  simp [tabComparator]

/-- Claim C9: ranking on `confidence` uses the fixed ordinal rank
high = 3, medium = 2, low = 1 with any unrecognized value ranked 0, and a
descending rank of [low, high, medium] yields [high, medium, low]. -/
theorem C9_confidence_ranking :
    confidenceOrder "high" = 3 ∧
    confidenceOrder "medium" = 2 ∧
    confidenceOrder "low" = 1 ∧
    confidenceOrder "certain" = 0 ∧
    confidenceOrder "" = 0 ∧
    sortedOpportunities .confidence false [oppConfLow, oppConfHigh, oppConfMedium] =
      [oppConfHigh, oppConfMedium, oppConfLow] := by
  decide

end Squash
